import Mathlib

/-!
# Verification of the fzsearch pagination/selection core

Shallow embedding of `src/index.js` (the `Fzf` picker wrapper, the `Search`
provider adapter with its static `savedResults` page cache, and the
`Fzsearch.prototype.run` pagination loop), together with theorems settling
the specification claims about it.

Conventions of the embedding:
* JavaScript arrays indexed by page number with holes
  (`Search.savedResults`) become `Nat → Option (List ResultItem)`; the
  truthiness test `if (savedResults[pageNum])` is a presence test, since a
  stored page is an array and every array is truthy in JavaScript.
* A `Promise` executor that either resolves, rejects, or lets an exception
  escape the request callback becomes the `FetchOutcome` inductive.
* The external `request` library call is modelled by its callback
  arguments `(error, response, body)`: either a transport error or a
  response carrying a status code, status message and body.  The external
  `cheerio` selector `$('.g > .r > a')` is modelled by the list of matched
  anchors, each reduced to its `.text()` and `.attr('href')` strings.
* Percent-decoding done by `querystring.parse` is not modelled; the query
  string is split on `&` and on the first `=` of each pair, which is the
  part of its behaviour the program relies on.
-/

/-- A parsed search result: `{ title: ..., url: ... }` as pushed by both
provider parsers.  For the google variant `url` is
`querystring.parse(href)['/url?q']`, which is `undefined` when the
parameter is absent, hence an `Option`. -/
structure ResultItem where
  title : String
  url   : Option String
deriving Repr, DecidableEq

/-! ## querystring.parse (external library, modelled) -/

/-- Split a character list on every occurrence of `sep`, keeping empty
segments (the semantics of `String.prototype.split` with a one-character
separator: the empty string yields `[""]`). -/
def splitChar (sep : Char) (cs : List Char) : List (List Char) :=
  match cs with
  | [] => [[]]
  | c :: rest =>
    let r := splitChar sep rest
    if c = sep then [] :: r
    else (c :: r.headD []) :: r.tail

/-- Break one `key=value` pair at its first `=`; `none` when the pair has
no `=` (such a pair gets the empty value). -/
def breakEq : List Char → List Char × Option (List Char)
  | [] => ([], none)
  | c :: rest =>
    if c = '=' then ([], some rest)
    else
      let (k, v) := breakEq rest
      (c :: k, v)

/-- One `key=value` pair of a query string: split on the first `=`
(`a=b=c` parses to key `a`, value `b=c`); a pair with no `=` gets the
empty value. -/
def qsPair (kv : List Char) : String × String :=
  let (k, v) := breakEq kv
  (k.asString, (v.getD []).asString)

/-- `querystring.parse`: split on `&` into pairs (percent-decoding not
modelled). -/
def qsParse (s : String) : List (String × String) :=
  (splitChar '&' s.data).map qsPair

/-- Property lookup on the parsed query string object. -/
def qsGet (k : String) (ps : List (String × String)) : Option String :=
  (ps.find? fun p => p.1 = k).map Prod.snd

/-! ## Provider adapter: `Search.prototype._google` / `_stackrOverflow` -/

/-- Request options built by `_google` (src/index.js lines 74-81):
`{ q, num, start: (pageNum - 1) * resultsPerPage, ie, oe }`. -/
structure GoogleQs where
  q     : String
  num   : Nat
  start : Nat
  ie    : String
  oe    : String
deriving Repr, DecidableEq

/-- Request options built by `_stackrOverflow` (src/index.js lines
117-123): `{ q, page: pageNum, pagesize, sort, site }`. -/
structure StackQs where
  q        : String
  page     : Nat
  pagesize : Nat
  sort     : String
  site     : String
deriving Repr, DecidableEq

/-- The options object assembled by the `Fzsearch` constructor. -/
structure SearchOptions where
  query          : String
  pageNum        : Nat
  resultsPerPage : Nat
deriving Repr, DecidableEq

def googleQs (o : SearchOptions) : GoogleQs :=
  { q     := o.query
    num   := o.resultsPerPage
    start := (o.pageNum - 1) * o.resultsPerPage
    ie    := "UTF-8"
    oe    := "UTF-8" }

def stackQs (o : SearchOptions) : StackQs :=
  { q        := o.query
    page     := o.pageNum
    pagesize := o.resultsPerPage
    sort     := "relevance"
    site     := "stackoverflow" }

/-- An anchor element matched by `$('.g > .r > a')`: its visible text and
its `href` attribute. -/
structure Anchor where
  text : String
  href : String
deriving Repr, DecidableEq

/-- Body of a google response as seen through cheerio: the anchors the
fixed selector matches (an empty or malformed page matches none). -/
structure GoogleHttp where
  statusCode    : Nat
  statusMessage : String
  anchors       : List Anchor
deriving Repr, DecidableEq

/-- One item of the stackexchange JSON body. -/
structure StackItem where
  title       : String
  question_id : Nat
deriving Repr, DecidableEq

/-- A stackexchange response; `items = none` models a body whose `items`
field is absent (malformed / non-JSON body), on which `body.items.forEach`
throws. -/
structure StackHttp where
  statusCode    : Nat
  statusMessage : String
  items         : Option (List StackItem)
deriving Repr, DecidableEq

/-- Callback argument of the `request` library: transport error or a
response. -/
inductive RequestResult (β : Type) where
  | transportError (message : String)
  | response (r : β)
deriving Repr, DecidableEq

/-- How the fetch promise settles: resolves with a page, rejects with an
`Error` message, or an exception escapes the request callback
(uncaught `TypeError`). -/
inductive FetchOutcome where
  | resolved (page : List ResultItem)
  | rejected (msg : String)
  | thrown
deriving Repr, DecidableEq

/-- `Search.savedResults`: a sparse array indexed by page number. -/
def Cache : Type := Nat → Option (List ResultItem)

def emptyCache : Cache := fun _ => none

/-- The `resultForPage` loop of `_google`: each matched anchor is pushed as
`{ title: a.text(), url: querystring.parse(a.attr('href'))['/url?q'] }`. -/
def googleParseAnchors (anchors : List Anchor) : List ResultItem :=
  anchors.map fun a => { title := a.text, url := qsGet "/url?q" (qsParse a.href) }

/-- The `resultForPage` loop of `_stackrOverflow`: each item is pushed as
`{ title: item.title, url: 'http://stackoverflow.com/questions/' + item.question_id }`. -/
def stackParseItems (items : List StackItem) : List ResultItem :=
  items.map fun it =>
    { title := it.title
      url   := some ("http://stackoverflow.com/questions/" ++ toString it.question_id) }

/-- The error message both variants reject with:
`Cannot get search result: ${msg}` where `msg` is `error.message` or
`statusCode + ' ' + statusMessage`. -/
def normalizedError (msg : String) : String :=
  "Cannot get search result: " ++ msg

/-- `Search.prototype._google` (src/index.js lines 72-112), as a function
of the current cache, page number and what the network returns.  Yields
the promise outcome, the cache afterwards, and how many network requests
were issued (`request` is called once on a cache miss, never on a hit). -/
def googleFetch (cache : Cache) (pageNum : Nat)
    (net : RequestResult GoogleHttp) : FetchOutcome × Cache × Nat :=
  match cache pageNum with
  | some saved => (.resolved saved, cache, 0)
  | none =>
    match net with
    | .transportError msg => (.rejected (normalizedError msg), cache, 1)
    | .response r =>
      if r.statusCode = 200 then
        let page := googleParseAnchors r.anchors
        (.resolved page, fun n => if n = pageNum then some page else cache n, 1)
      else
        (.rejected (normalizedError (toString r.statusCode ++ " " ++ r.statusMessage)),
          cache, 1)

/-- `Search.prototype._stackrOverflow` (src/index.js lines 114-151).  On a
200 response whose body has no `items` array, `body.items.forEach` throws
a `TypeError` that escapes the callback. -/
def stackFetch (cache : Cache) (pageNum : Nat)
    (net : RequestResult StackHttp) : FetchOutcome × Cache × Nat :=
  match cache pageNum with
  | some saved => (.resolved saved, cache, 0)
  | none =>
    match net with
    | .transportError msg => (.rejected (normalizedError msg), cache, 1)
    | .response r =>
      if r.statusCode = 200 then
        match r.items with
        | none => (.thrown, cache, 1)
        | some items =>
          let page := stackParseItems items
          (.resolved page, fun n => if n = pageNum then some page else cache n, 1)
      else
        (.rejected (normalizedError (toString r.statusCode ++ " " ++ r.statusMessage)),
          cache, 1)

/-- The `-s` site option. -/
inductive Site where
  | google
  | stack
deriving Repr, DecidableEq

/-- What each provider's network returns for each requested page during
one invocation. -/
structure NetWorld where
  googleNet : Nat → RequestResult GoogleHttp
  stackNet  : Nat → RequestResult StackHttp

/-- `Search.prototype.asyncRun`: dispatch on `options.site`. -/
def asyncRun (site : Site) (cache : Cache) (pageNum : Nat)
    (net : NetWorld) : FetchOutcome × Cache × Nat :=
  match site with
  | .google => googleFetch cache pageNum (net.googleNet pageNum)
  | .stack  => stackFetch cache pageNum (net.stackNet pageNum)

/-! ## Picker output decoding (the `fzf.on('exit', ...)` handler) -/

/-- The lines of the picker's stdout: `stdout.split('\n')`. -/
def stdoutLines (s : String) : List String :=
  (splitChar '\n' s.data).map List.asString

/-- Longest leading run of decimal digits, with the remainder. -/
def takeDigits (cs : List Char) : List Char × List Char :=
  match cs with
  | [] => ([], [])
  | c :: rest =>
    if c.isDigit then
      let (ds, r) := takeDigits rest
      (c :: ds, r)
    else ([], c :: rest)

/-- The digit string captured by `/^\[(\d+)\]/`, read as the number the
selection index coerces to. -/
def digitsToNat (ds : List Char) : Nat :=
  ds.foldl (fun acc c => acc * 10 + (c.toNat - 48)) 0

/-- `selectedString.match(/^\[(\d+)\]/)`: a leading `[`, one or more
digits, then `]`; `none` models a `null` match. -/
def matchBracketIndex (s : String) : Option Nat :=
  match s.data with
  | '[' :: rest =>
    let (ds, r) := takeDigits rest
    if ds.isEmpty then none
    else
      match r with
      | ']' :: _ => some (digitsToNat ds)
      | _ => none
  | _ => none

/-- The spec's PickerOutcome: abort, paging key, or a selected index. -/
inductive Key where
  | nextPage
  | prevPage
deriving Repr, DecidableEq

inductive PickerOutcome where
  | exitAborted
  | keyPressed (k : Key)
  | itemSelected (index : Nat)
deriving Repr, DecidableEq

/-- What decoding the picker stdout does: either an outcome, or an
uncaught `TypeError` (reading `[1]` of a `null` match, or `.match` of an
`undefined` second line). -/
inductive DecodeResult where
  | outcome (o : PickerOutcome)
  | typeError
deriving Repr, DecidableEq

/-- The dispatch of `Fzsearch.prototype.run`'s exit handler on the split
stdout (src/index.js lines 186-201): `stdout[0]` is the key line,
`stdout[1]` the selected label; `switch` on the key, default branch
parses the bracketed index. -/
def decodeLines (lines : List String) : DecodeResult :=
  let keyInput := lines.headD ""
  let selectedString := lines[1]?
  if keyInput = "ctrl-n" then .outcome (.keyPressed .nextPage)
  else if keyInput = "ctrl-p" then .outcome (.keyPressed .prevPage)
  else
    match selectedString with
    | none => .typeError
    | some sel =>
      match matchBracketIndex sel with
      | none => .typeError
      | some i => .outcome (.itemSelected i)

/-- The exit handler's view of stdout: `none` when fzf produced no data
(the captured `stdout` stays `undefined`); `if (!stdout) process.exit(1)`
also fires on the empty string.  Only past that guard is the output split
and dispatched. -/
def decodeStdout (stdout : Option String) : DecodeResult :=
  match stdout with
  | none => .outcome .exitAborted
  | some s =>
    if s = "" then .outcome .exitAborted
    else decodeLines (stdoutLines s)

/-! ## The pagination loop (`Fzsearch.prototype.run`) -/

/-- A value handed to `console.log`.  The selection branch of the code
(src/index.js line 200) passes `searchResult[index]`, so it only ever
logs `obj` (the whole `ResultItem`) or `undef` (index out of the page's
range); `str` is what logging a plain string would be — the claims expect
the selected item's url, a string, to be printed, and this constructor
lets that expectation be compared with what the code does. -/
inductive Printed where
  | str (s : String)
  | obj (it : ResultItem)
  | undef
deriving Repr, DecidableEq

/-- Control position of one invocation of `run()`:
fetch in flight, picker open and fed `fed`, selection printed and the
process draining to exit 0, `process.exit c` called, or an uncaught
`TypeError`. -/
inductive Phase where
  | fetching
  | awaiting (fed : List ResultItem)
  | done (v : Printed)
  | exited (c : Nat)
  | crashed
deriving DecidableEq

/-- Program state threaded through the loop: the mutable
`options.pageNum`, the static `Search.savedResults`, the control phase,
and the observables (lines written to the current fzf session's stdin,
whether that session was killed, stderr log, network request count). -/
structure MState where
  pageNum       : Nat
  cache         : Cache
  phase         : Phase
  sessionWrites : List String
  killed        : Bool
  stderrLog     : List String
  requestCount  : Nat

/-- State at `new Fzsearch(argv)`: `pageNum: 1`, empty
`Search.savedResults`, about to fetch. -/
def initState : MState :=
  { pageNum := 1, cache := emptyCache, phase := .fetching,
    sessionWrites := [], killed := false, stderrLog := [], requestCount := 0 }

/-- The labels fed to fzf: `[${index}] ${item.title}` for each item, in
page order (each written as one line by `stdinWrite`). -/
def feedLines (page : List ResultItem) : List String :=
  page.enum.map fun p => "[" ++ toString p.1 ++ "] " ++ p.2.title

/-- One fetch-and-render step: `fzf.start(); searcher.asyncRun()` followed
by the `.catch`/`.then` pair (src/index.js lines 170-181).  On resolve the
items are written to fzf's stdin and the loop awaits the picker outcome;
on reject fzf is killed and the error printed to stderr, after which the
killed fzf closes with no stdout and the exit handler runs
`process.exit(1)`; an exception escaping the request callback crashes the
process. -/
def stepFetch (site : Site) (net : NetWorld) (s : MState) : MState :=
  match asyncRun site s.cache s.pageNum net with
  | (.resolved page, cache', n) =>
    { s with cache := cache', requestCount := s.requestCount + n,
             sessionWrites := feedLines page, killed := false,
             phase := .awaiting page }
  | (.rejected msg, cache', n) =>
    { s with cache := cache', requestCount := s.requestCount + n,
             sessionWrites := [], killed := true,
             stderrLog := s.stderrLog ++ [msg],
             phase := .exited 1 }
  | (.thrown, cache', n) =>
    { s with cache := cache', requestCount := s.requestCount + n,
             sessionWrites := [], killed := false,
             phase := .crashed }

/-- The exit handler (src/index.js lines 183-203) applied to the stdout
of the finished fzf session: abort exits 1; `ctrl-n` / `ctrl-p` adjust
`pageNum` and loop; the default branch resolves the parsed index against
`Search.savedResults[this.options.pageNum]` and logs what it finds. -/
def stepInput (s : MState) (stdout : Option String) : MState :=
  match decodeStdout stdout with
  | .outcome .exitAborted => { s with phase := .exited 1 }
  | .outcome (.keyPressed .nextPage) =>
    { s with pageNum := s.pageNum + 1, phase := .fetching }
  | .outcome (.keyPressed .prevPage) =>
    { s with pageNum := if 1 < s.pageNum then s.pageNum - 1 else s.pageNum,
             phase := .fetching }
  | .outcome (.itemSelected i) =>
    match s.cache s.pageNum with
    | none => { s with phase := .crashed }
    | some page =>
      match page[i]? with
      | some it => { s with phase := .done (.obj it) }
      | none => { s with phase := .done .undef }
  | .typeError => { s with phase := .crashed }

/-- Drive the loop on a script of fzf session outputs (one entry per
picker session the user finishes).  Each iteration fetches; if the fetch
rendered a page, the next script entry is that session's stdout; paging
keys loop, anything else ends the run.  An exhausted script leaves the
loop awaiting user input. -/
def runFz (site : Site) (net : NetWorld) : MState → List (Option String) → MState
  | s, [] => stepFetch site net s
  | s, o :: rest =>
    let s1 := stepFetch site net s
    match s1.phase with
    | .awaiting _ =>
      let s2 := stepInput s1 o
      match s2.phase with
      | .fetching => runFz site net s2 rest
      | _ => s2
    | _ => s1

/-- Exit code of a finished state: natural drain after a logged selection
is 0, `process.exit(1)` is 1, an uncaught exception exits 1; `none` while
still running or blocked on input. -/
def MState.exitCode (s : MState) : Option Nat :=
  match s.phase with
  | .done _ => some 0
  | .exited c => some c
  | .crashed => some 1
  | _ => none

/-- What the invocation printed to stdout, if anything. -/
def MState.stdoutPrinted (s : MState) : Option Printed :=
  match s.phase with
  | .done v => some v
  | _ => none

/-- The invariant relating the cache to the page the open picker session
was fed: whenever the loop is blocked awaiting a picker outcome,
`Search.savedResults[options.pageNum]` is exactly the page whose titles
were written to that session. -/
def cacheFedInv (s : MState) : Prop :=
  ∀ fed, s.phase = .awaiting fed → s.cache s.pageNum = some fed

/-! ## Concrete worlds used to instantiate theorems with hypotheses -/

/-- A provider whose google variant always answers 200 with two results
(the end-to-end scenario of the spec: page 1 = [{A,u1},{B,u2}]). -/
def wgNet : NetWorld :=
  { googleNet := fun _ => .response
      { statusCode := 200, statusMessage := "OK",
        anchors := [{ text := "A", href := "/url?q=u1" },
                    { text := "B", href := "/url?q=u2" }] }
    stackNet := fun _ => .transportError "unused" }

/-- The page the google variant parses out of `wgNet`. -/
def wgPage : List ResultItem :=
  [{ title := "A", url := some "u1" }, { title := "B", url := some "u2" }]

/-- `Search.savedResults` after page 1 has been fetched from `wgNet`. -/
def wgCache : Cache :=
  fun n => if n = 1 then some wgPage else none

/-- A provider whose google variant answers a non-200 status and whose
stack variant fails at the transport level. -/
def errNet : NetWorld :=
  { googleNet := fun _ => .response
      { statusCode := 500, statusMessage := "Internal Server Error", anchors := [] }
    stackNet := fun _ => .transportError "connection refused" }

/-! ## Helper lemmas (shared) -/

theorem stepFetch_pageNum (site : Site) (net : NetWorld) (s : MState) :
    (stepFetch site net s).pageNum = s.pageNum := by
  unfold stepFetch
  split <;> rfl

theorem asyncRun_resolved_cache (site : Site) (cache : Cache) (p : Nat)
    (net : NetWorld) (page : List ResultItem)
    (h : (asyncRun site cache p net).1 = .resolved page) :
    (asyncRun site cache p net).2.1 p = some page := by
  cases site <;> simp only [asyncRun] at h ⊢
  case google =>
    cases hc : cache p with
    | some saved =>
      simp [googleFetch, hc] at h ⊢
      exact h
    | none =>
      cases hn : net.googleNet p with
      | transportError msg => simp [googleFetch, hc, hn] at h
      | response r =>
        by_cases hs : r.statusCode = 200
        · simp [googleFetch, hc, hn, hs] at h ⊢
          exact h
        · simp [googleFetch, hc, hn, hs] at h
  case stack =>
    cases hc : cache p with
    | some saved =>
      simp [stackFetch, hc] at h ⊢
      exact h
    | none =>
      cases hn : net.stackNet p with
      | transportError msg => simp [stackFetch, hc, hn] at h
      | response r =>
        by_cases hs : r.statusCode = 200
        · cases hi : r.items with
          | none => simp [stackFetch, hc, hn, hs, hi] at h
          | some items =>
            simp [stackFetch, hc, hn, hs, hi] at h ⊢
            exact h
        · simp [stackFetch, hc, hn, hs] at h

theorem stepFetch_establishes_inv (site : Site) (net : NetWorld) (s : MState) :
    cacheFedInv (stepFetch site net s) := by
  intro fed h
  unfold stepFetch at h ⊢
  cases hA : asyncRun site s.cache s.pageNum net with
  | mk o cn =>
    obtain ⟨c, n⟩ := cn
    rw [hA] at h
    cases o with
    | resolved pg =>
      have hres : (asyncRun site s.cache s.pageNum net).1 = .resolved pg := by
        rw [hA]
      have hc := asyncRun_resolved_cache site s.cache s.pageNum net pg hres
      rw [hA] at hc
      simp only [Phase.awaiting.injEq] at h
      subst h
      simpa using hc
    | rejected msg => simp at h
    | thrown => simp at h

theorem stepInput_not_awaiting (s : MState) (o : Option String)
    (fed : List ResultItem) : (stepInput s o).phase ≠ .awaiting fed := by
  cases hd : decodeStdout o with
  | typeError => simp [stepInput, hd]
  | outcome oc =>
    cases oc with
    | exitAborted => simp [stepInput, hd]
    | keyPressed k => cases k <;> simp [stepInput, hd]
    | itemSelected i =>
      cases hc : s.cache s.pageNum with
      | none => simp [stepInput, hd, hc]
      | some pg => cases hp : pg[i]? <;> simp [stepInput, hd, hc, hp]

theorem stepInput_pageNum_ge (s : MState) (o : Option String)
    (hs : 1 ≤ s.pageNum) : 1 ≤ (stepInput s o).pageNum := by
  cases hd : decodeStdout o with
  | typeError => simpa [stepInput, hd] using hs
  | outcome oc =>
    cases oc with
    | exitAborted => simpa [stepInput, hd] using hs
    | keyPressed k =>
      cases k with
      | nextPage =>
        have hpn : (stepInput s o).pageNum = s.pageNum + 1 := by
          simp [stepInput, hd]
        omega
      | prevPage =>
        have hpn : (stepInput s o).pageNum
            = if 1 < s.pageNum then s.pageNum - 1 else s.pageNum := by
          simp [stepInput, hd]
        rw [hpn]
        split <;> omega
    | itemSelected i =>
      cases hc : s.cache s.pageNum with
      | none => simpa [stepInput, hd, hc] using hs
      | some pg =>
        cases hp : pg[i]? <;> simpa [stepInput, hd, hc, hp] using hs

theorem runFz_pageNum_ge (site : Site) (net : NetWorld)
    (script : List (Option String)) :
    ∀ s : MState, 1 ≤ s.pageNum → 1 ≤ (runFz site net s script).pageNum := by
  induction script with
  | nil =>
    intro s hs
    simpa [runFz, stepFetch_pageNum] using hs
  | cons o rest ih =>
    intro s hs
    have h1 : 1 ≤ (stepFetch site net s).pageNum := by
      rw [stepFetch_pageNum]; exact hs
    simp only [runFz]
    split
    · split
      · exact ih _ (stepInput_pageNum_ge _ _ h1)
      · exact stepInput_pageNum_ge _ _ h1
    · exact h1

theorem runFz_inv (site : Site) (net : NetWorld)
    (script : List (Option String)) :
    ∀ s : MState, cacheFedInv (runFz site net s script) := by
  induction script with
  | nil =>
    intro s
    simpa [runFz] using stepFetch_establishes_inv site net s
  | cons o rest ih =>
    intro s
    simp only [runFz]
    split
    · split
      · exact ih _
      · intro fed h
        exact absurd h (stepInput_not_awaiting _ _ _)
    · exact stepFetch_establishes_inv site net s

theorem googleFetch_count_le_one (cache : Cache) (p : Nat)
    (net : RequestResult GoogleHttp) : (googleFetch cache p net).2.2 ≤ 1 := by
  unfold googleFetch
  split
  · simp
  · split
    · simp
    · split <;> simp

theorem stackFetch_count_le_one (cache : Cache) (p : Nat)
    (net : RequestResult StackHttp) : (stackFetch cache p net).2.2 ≤ 1 := by
  unfold stackFetch
  split
  · simp
  · split
    · simp
    · split
      · split <;> simp
      · simp

/-! ## Claim theorems -/

/-- Claim C3: running the fetch-through-cache path twice with the same
page number in one invocation invokes the provider network request at
most once and returns the identical ResultPage both times: if the first
run resolves with `page`, it issued at most one request, and a second run
from the cache it left behind resolves with the same `page`, leaves the
cache unchanged, and issues zero requests — whatever the network would
now answer. -/
theorem c3_fetch_through_cache_at_most_once (site : Site) (cache : Cache)
    (p : Nat) (net : NetWorld) (page : List ResultItem)
    (h : (asyncRun site cache p net).1 = .resolved page) :
    (asyncRun site cache p net).2.2 ≤ 1 ∧
    ∀ net2 : NetWorld,
      asyncRun site ((asyncRun site cache p net).2.1) p net2
        = (.resolved page, (asyncRun site cache p net).2.1, 0) := by
  have hc' := asyncRun_resolved_cache site cache p net page h
  refine ⟨?_, fun net2 => ?_⟩
  · cases site <;> simp only [asyncRun]
    · exact googleFetch_count_le_one ..
    · exact stackFetch_count_le_one ..
  · cases site <;> simp only [asyncRun] at hc' ⊢
    · generalize hG : (googleFetch cache p (net.googleNet p)).2.1 = c2 at hc' ⊢
      unfold googleFetch
      rw [hc']
    · generalize hG : (stackFetch cache p (net.stackNet p)).2.1 = c2 at hc' ⊢
      unfold stackFetch
      rw [hc']

/-- Witness for C3: page 1 fetched once from `wgNet`; refetching the same
page resolves identically from the cache with zero requests, even against
a failing provider. -/
theorem c3_witness :
    (asyncRun .google emptyCache 1 wgNet).2.2 ≤ 1 ∧
    asyncRun .google ((asyncRun .google emptyCache 1 wgNet).2.1) 1 errNet
      = (.resolved wgPage, (asyncRun .google emptyCache 1 wgNet).2.1, 0) := by
  have h := c3_fetch_through_cache_at_most_once .google emptyCache 1 wgNet wgPage
    (by decide)
  exact ⟨h.1, h.2 errNet⟩

/-- Claim C4 counterexample: picker output `"\nfoo"` (empty key line, no
well-formed selection line) does not decode to EXIT_ABORTED — it is
truthy, escapes the `!stdout` guard, and the failed bracket parse on the
second line is an uncaught TypeError. -/
theorem c4_counterexample_nfoo_not_aborted :
    decodeStdout (some "\nfoo") = .typeError ∧
    decodeStdout (some "\nfoo") ≠ .outcome .exitAborted := by decide

/-- Claim C4 (amended): fully empty or absent picker output decodes to
EXIT_ABORTED, on which the process exits with status 1 having printed
nothing to stdout; the two-line output `"\nfoo"`, however, does not
decode to EXIT_ABORTED but raises a TypeError, crashing the process —
still a non-zero exit with no stdout output, but not via the abort
branch. -/
theorem c4_amended_abort_on_empty_output :
    decodeStdout none = .outcome .exitAborted ∧
    decodeStdout (some "") = .outcome .exitAborted ∧
    (∀ s : MState,
      (stepInput s none).phase = .exited 1 ∧
      (stepInput s none).exitCode = some 1 ∧
      (stepInput s none).stdoutPrinted = none ∧
      (stepInput s (some "")).phase = .exited 1 ∧
      (stepInput s (some "\nfoo")).phase = .crashed ∧
      (stepInput s (some "\nfoo")).exitCode = some 1 ∧
      (stepInput s (some "\nfoo")).stdoutPrinted = none) :=
  ⟨by decide, by decide, fun s => ⟨rfl, rfl, rfl, rfl, rfl, rfl, rfl⟩⟩

/-- Witness for C4 (amended), instantiated at the initial state. -/
theorem c4_witness :
    (stepInput initState none).phase = .exited 1 ∧
    (stepInput initState (some "\nfoo")).phase = .crashed :=
  ⟨(c4_amended_abort_on_empty_output.2.2 initState).1,
   (c4_amended_abort_on_empty_output.2.2 initState).2.2.2.2.1⟩

/-- Claim C5 counterexample: on picker output whose second line has no
leading bracketed number (here `"abc\ndef"`), the decoder does not yield
ITEM_SELECTED of a parsed index — the `null` match makes it throw a
TypeError. -/
theorem c5_counterexample_unparsable_second_line :
    decodeStdout (some "abc\ndef") = .typeError := by decide

/-- Claim C5 (amended): a first line `ctrl-n` decodes to
KEY_PRESSED(NEXT_PAGE) and a first line `ctrl-p` to
KEY_PRESSED(PREV_PAGE); otherwise, when the second line starts with a
bracketed number the decoder yields ITEM_SELECTED of that index, and when
it does not (or there is no second line) decoding raises a TypeError
instead of yielding an outcome; non-empty stdout is decoded exactly by
splitting it into lines. -/
theorem c5_amended_outcome_decoder (key sel : String) (rest : List String)
    (hn : key ≠ "ctrl-n") (hp : key ≠ "ctrl-p") :
    decodeLines ("ctrl-n" :: rest) = .outcome (.keyPressed .nextPage) ∧
    decodeLines ("ctrl-p" :: rest) = .outcome (.keyPressed .prevPage) ∧
    (∀ i : Nat, matchBracketIndex sel = some i →
      decodeLines (key :: sel :: rest) = .outcome (.itemSelected i)) ∧
    (matchBracketIndex sel = none →
      decodeLines (key :: sel :: rest) = .typeError) ∧
    decodeLines [key] = .typeError ∧
    (∀ s : String, s ≠ "" → decodeStdout (some s) = decodeLines (stdoutLines s)) := by
  refine ⟨by simp [decodeLines], by simp [decodeLines], ?_, ?_, ?_, ?_⟩
  · intro i hi
    simp [decodeLines, hn, hp, hi]
  · intro hi
    simp [decodeLines, hn, hp, hi]
  · simp [decodeLines, hn, hp]
  · intro s hs
    simp [decodeStdout, hs]

/-- Witness for C5 (amended) on the spec's own examples. -/
theorem c5_witness :
    decodeLines ["ctrl-n", ""] = .outcome (.keyPressed .nextPage) ∧
    decodeLines ["ctrl-p", ""] = .outcome (.keyPressed .prevPage) ∧
    decodeLines ["", "[2] Example Title"] = .outcome (.itemSelected 2) ∧
    decodeStdout (some "ctrl-n\n") = decodeLines (stdoutLines "ctrl-n\n") := by
  have h1 := c5_amended_outcome_decoder "x" "y" [""] (by decide) (by decide)
  have h2 := c5_amended_outcome_decoder "" "[2] Example Title" [] (by decide) (by decide)
  exact ⟨h1.1, h1.2.1, h2.2.2.1 2 (by decide), h1.2.2.2.2.2 "ctrl-n\n" (by decide)⟩

/-- Claim C7 counterexample: an empty/markup-mismatched body with a 200
status does not make the WEB variant fail — it resolves with an empty
ResultPage. -/
theorem c7_counterexample_empty_body_resolves :
    (googleFetch emptyCache 1
      (.response { statusCode := 200, statusMessage := "OK", anchors := [] })).1
      = .resolved [] := by decide

/-- Claim C7 (amended): for both variants a transport error or a non-200
status causes the fetch to reject with the single normalized error
`Cannot get search result: <cause>`, and each fetch issues at most one
network request; but a malformed/empty body with a 200 status does not
produce that error: the WEB variant resolves with the (possibly empty)
parsed page, and the QA_SITE variant throws an uncaught TypeError when
the body has no items array. -/
theorem c7_amended_error_normalization (cache : Cache) (p : Nat)
    (msg : String) (gr : GoogleHttp) (sr : StackHttp)
    (hmiss : cache p = none) (hg : gr.statusCode ≠ 200)
    (hs : sr.statusCode ≠ 200) :
    googleFetch cache p (.transportError msg)
      = (.rejected (normalizedError msg), cache, 1) ∧
    (googleFetch cache p (.response gr)).1
      = .rejected (normalizedError
          (toString gr.statusCode ++ " " ++ gr.statusMessage)) ∧
    stackFetch cache p (.transportError msg)
      = (.rejected (normalizedError msg), cache, 1) ∧
    (stackFetch cache p (.response sr)).1
      = .rejected (normalizedError
          (toString sr.statusCode ++ " " ++ sr.statusMessage)) ∧
    (stackFetch cache p (.response
        { statusCode := 200, statusMessage := "OK", items := none })).1
      = .thrown ∧
    (googleFetch cache p (.response
        { statusCode := 200, statusMessage := "OK", anchors := gr.anchors })).1
      = .resolved (googleParseAnchors gr.anchors) ∧
    (∀ (cache2 : Cache) (net : RequestResult GoogleHttp),
      (googleFetch cache2 p net).2.2 ≤ 1) ∧
    (∀ (cache2 : Cache) (net : RequestResult StackHttp),
      (stackFetch cache2 p net).2.2 ≤ 1) := by
  refine ⟨?_, ?_, ?_, ?_, ?_, ?_,
    fun c2 net => googleFetch_count_le_one .., fun c2 net => stackFetch_count_le_one ..⟩ <;>
    simp [googleFetch, stackFetch, hmiss, hg, hs]

/-- Witness for C7 (amended): transport failure and a 400 status, both
normalized. -/
theorem c7_witness :
    googleFetch emptyCache 1 (.transportError "socket hang up")
      = (.rejected "Cannot get search result: socket hang up", emptyCache, 1) ∧
    (stackFetch emptyCache 1 (.response
        { statusCode := 400, statusMessage := "Bad Request", items := none })).1
      = .rejected "Cannot get search result: 400 Bad Request" := by
  have h := c7_amended_error_normalization emptyCache 1 "socket hang up"
    { statusCode := 500, statusMessage := "Internal Server Error", anchors := [] }
    { statusCode := 400, statusMessage := "Bad Request", items := none }
    rfl (by decide) (by decide)
  exact ⟨h.1, h.2.2.2.1⟩

/-- Claim C8: for every one-based page number, the WEB variant's request
carries the zero-based offset `start = (pageNumber - 1) * pageSize`
(page 1 starts at offset 0 and each next page advances the offset by
`pageSize`), while the QA_SITE variant passes the one-based page number
through unchanged as its `page` parameter. -/
theorem c8_request_offsets (o : SearchOptions) (h : 1 ≤ o.pageNum) :
    (googleQs o).start = (o.pageNum - 1) * o.resultsPerPage ∧
    (googleQs { o with pageNum := 1 }).start = 0 ∧
    (googleQs { o with pageNum := o.pageNum + 1 }).start
      = (googleQs o).start + o.resultsPerPage ∧
    (stackQs o).page = o.pageNum ∧
    (stackQs { o with pageNum := o.pageNum + 1 }).page
      = (stackQs o).page + 1 := by
  obtain ⟨p, hp⟩ : ∃ p, o.pageNum = p + 1 := ⟨o.pageNum - 1, by omega⟩
  refine ⟨rfl, by simp [googleQs], ?_, rfl, rfl⟩
  simp only [googleQs, hp, Nat.add_sub_cancel]
  rw [Nat.succ_mul]

/-- Witness for C8 at page 3 with page size 30. -/
theorem c8_witness :
    (googleQs { query := "widgets", pageNum := 3, resultsPerPage := 30 }).start
      = 60 ∧
    (stackQs { query := "widgets", pageNum := 3, resultsPerPage := 30 }).page
      = 3 := by
  have h := c8_request_offsets
    { query := "widgets", pageNum := 3, resultsPerPage := 30 } (by decide)
  exact ⟨h.1, h.2.2.2.1⟩

/-- Claim C9: parsing a provider response with k well-formed result
entries yields a ResultPage of exactly length k whose items appear in the
same order as the entries of the response: the i-th parsed item is
exactly the translation of the i-th response entry, for both variants. -/
theorem c9_parse_preserves_length_and_order (anchors : List Anchor)
    (items : List StackItem) :
    (googleParseAnchors anchors).length = anchors.length ∧
    (stackParseItems items).length = items.length ∧
    (∀ i : Nat, (googleParseAnchors anchors)[i]?
      = (anchors[i]?).map fun a =>
          { title := a.text, url := qsGet "/url?q" (qsParse a.href) }) ∧
    (∀ i : Nat, (stackParseItems items)[i]?
      = (items[i]?).map fun it =>
          { title := it.title,
            url := some ("http://stackoverflow.com/questions/"
              ++ toString it.question_id) }) := by
  refine ⟨by simp [googleParseAnchors], by simp [stackParseItems], ?_, ?_⟩ <;>
    intro i <;> simp [googleParseAnchors, stackParseItems]

/-- Claim C1, evaluated at the spec's end-to-end scenario (page 1 =
[{A,u1},{B,u2}], picker selects index 1): the controller does look up the
ResultItem at that index within the just-rendered page and the process
does exit with status 0, but `console.log` receives the whole ResultItem
object `{ title, url }`, not the item's url string — the claim's
"prints that item's url" is exactly what the code fails to do
(`console.log(searchResult[index])`, src/index.js line 200, against
`console.log(result[index].url)` in every earlier revision). -/
theorem c1_selection_prints_object_not_url :
    (runFz .google wgNet initState [some "\n[1] B"]).stdoutPrinted
      = some (.obj { title := "B", url := some "u2" }) ∧
    (runFz .google wgNet initState [some "\n[1] B"]).stdoutPrinted
      ≠ some (.str "u2") ∧
    (runFz .google wgNet initState [some "\n[1] B"]).exitCode = some 0 := by
  decide

/-- Claim C2: whenever the provider fetch for the first page rejects, the
controller kills the live picker session, the error message reaches
stderr, the process exits with status 1, nothing is printed to stdout,
and nothing is ever written to that picker session's input stream. -/
theorem c2_fetch_failure_aborts_cleanly (site : Site) (net : NetWorld)
    (msg : String) (script : List (Option String))
    (h : (asyncRun site initState.cache initState.pageNum net).1
      = .rejected msg) :
    (runFz site net initState script).phase = .exited 1 ∧
    (runFz site net initState script).exitCode = some 1 ∧
    (runFz site net initState script).stderrLog = [msg] ∧
    (runFz site net initState script).killed = true ∧
    (runFz site net initState script).sessionWrites = [] ∧
    (runFz site net initState script).stdoutPrinted = none := by
  cases hA : asyncRun site initState.cache initState.pageNum net with
  | mk o cn =>
    obtain ⟨c, n⟩ := cn
    rw [hA] at h
    simp only at h
    subst h
    have hA2 : asyncRun site emptyCache 1 net = (FetchOutcome.rejected msg, c, n) := hA
    cases script <;>
      simp [runFz, stepFetch, hA2, MState.exitCode, MState.stdoutPrinted, initState]

/-- Witness for C2: the stack variant failing at transport level. -/
theorem c2_witness :
    (runFz .stack errNet initState [some "\n[0] A"]).phase = .exited 1 ∧
    (runFz .stack errNet initState [some "\n[0] A"]).stderrLog
      = ["Cannot get search result: connection refused"] ∧
    (runFz .stack errNet initState [some "\n[0] A"]).sessionWrites = [] ∧
    (runFz .stack errNet initState [some "\n[0] A"]).killed = true := by
  have h := c2_fetch_failure_aborts_cleanly .stack errNet
    "Cannot get search result: connection refused" [some "\n[0] A"] (by decide)
  exact ⟨h.1, h.2.2.1, h.2.2.2.2.1, h.2.2.2.1⟩

/-- Claim C6: from any state whose page number is at least 1 (the loop
starts at 1), every state the pagination loop reaches keeps the page
number at least 1; a decoded NEXT_PAGE key increments it by one, and a
decoded PREV_PAGE key decrements it by one except when it is already 1,
where it stays 1. -/
theorem c6_page_number_invariant (site : Site) (net : NetWorld) (s : MState)
    (script : List (Option String)) (o : Option String)
    (hs : 1 ≤ s.pageNum) :
    1 ≤ (runFz site net s script).pageNum ∧
    (decodeStdout o = .outcome (.keyPressed .nextPage) →
      (stepInput s o).pageNum = s.pageNum + 1) ∧
    (decodeStdout o = .outcome (.keyPressed .prevPage) →
      (stepInput s o).pageNum = if s.pageNum = 1 then 1 else s.pageNum - 1) := by
  refine ⟨runFz_pageNum_ge site net script s hs, ?_, ?_⟩
  · intro hd
    simp [stepInput, hd]
  · intro hd
    have hpn : (stepInput s o).pageNum
        = if 1 < s.pageNum then s.pageNum - 1 else s.pageNum := by
      simp [stepInput, hd]
    rw [hpn]
    rcases Nat.lt_or_ge 1 s.pageNum with h1 | h1
    · rw [if_pos h1, if_neg (by omega)]
    · have h2 : s.pageNum = 1 := by omega
      simp [h2]

/-- Witness for C6: paging back at page 1 stays at page 1, paging forward
increments. -/
theorem c6_witness :
    1 ≤ (runFz .google wgNet initState [some "ctrl-p\n", some "ctrl-n\n"]).pageNum ∧
    (stepInput initState (some "ctrl-n\n")).pageNum = initState.pageNum + 1 ∧
    (stepInput initState (some "ctrl-p\n")).pageNum = 1 := by
  have h1 := c6_page_number_invariant .google wgNet initState
    [some "ctrl-p\n", some "ctrl-n\n"] (some "ctrl-n\n") (by decide)
  have h2 := c6_page_number_invariant .google wgNet initState
    [some "ctrl-p\n", some "ctrl-n\n"] (some "ctrl-p\n") (by decide)
  refine ⟨h1.1, h1.2.1 (by decide), ?_⟩
  have h3 := h2.2.2 (by decide)
  simpa using h3

/-- Claim C10: whenever the loop is awaiting a picker outcome, the cache
entry for the current page number is exactly the page that was fed to
that picker session (the put happens before rendering and the page number
does not change in between), so resolving a selected index through the
cache — as the code does — yields the same item as resolving it against
the fed list. -/
theorem c10_cache_matches_rendered_page (site : Site) (net : NetWorld)
    (script : List (Option String)) (fed : List ResultItem)
    (h : (runFz site net initState script).phase = .awaiting fed) :
    (runFz site net initState script).cache
        (runFz site net initState script).pageNum = some fed ∧
    ∀ (o : Option String) (i : Nat),
      decodeStdout o = .outcome (.itemSelected i) →
      (stepInput (runFz site net initState script) o).phase
        = match fed[i]? with
          | some it => .done (.obj it)
          | none => .done .undef := by
  have hc := runFz_inv site net script initState fed h
  refine ⟨hc, fun o i hd => ?_⟩
  cases hi : fed[i]? <;> simp [stepInput, hd, hc, hi]

/-- Witness for C10: after fetching page 1 the loop awaits input with the
cache holding exactly the fed page, and selecting index 0 resolves to
that page's first item. -/
theorem c10_witness :
    (runFz .google wgNet initState []).cache
        (runFz .google wgNet initState []).pageNum = some wgPage ∧
    (stepInput (runFz .google wgNet initState []) (some "\n[0] A")).phase
      = .done (.obj { title := "A", url := some "u1" }) := by
  have h := c10_cache_matches_rendered_page .google wgNet [] wgPage (by decide)
  exact ⟨h.1, h.2 (some "\n[0] A") 0 (by decide)⟩
